import Mathlib

/-!
A shallow embedding in Lean 4 of `src/url_to_pdf.py`, the single source file
of the aua-digilib text-to-PDF converter, together with theorems settling the
frozen claims about it.

Modelling conventions
* The HTTP client, the HTML parser and the PDF renderer are external
  collaborators.  A fetched main page is modelled by `MainPage`: the queries
  the code performs on the parse tree (`soup.find('div', class_=...)`,
  `tag.find_all('a', href=True)`, `tag.find('h1')`, `tag.text`) become fields
  holding exactly the data those queries return.  A chapter detail page is
  modelled by `FetchOutcome`: either a network error (a
  `requests.exceptions.RequestException` raised by `requests.get` /
  `raise_for_status`) or a parsed `ChapterDoc`.
* Draw commands issued to the `FPDF` object are recorded as a `List RenderOp`,
  one constructor per drawing call site of the Python code.
* `pdf.page_no()` only ever grows: pages are added by explicit `add_page`
  calls and by automatic page breaks inside `multi_cell` / `image`.  The
  number of automatic page breaks a chapter's body causes is renderer
  behaviour outside the assembly logic, so it enters the model as an
  arbitrary function `extra : Nat -> Nat` from the chapter index to the count
  of extra pages that chapter consumed.
* `pdf.get_string_width` (fpdf) is additive over the characters of its
  argument: the width of a string is the sum of the widths of its characters
  for the current font.  It is embedded as `get_string_width cw`, the sum of
  an arbitrary per-character width table `cw : Char -> Rat`.
* Machine floats of fpdf (widths, Y positions) are modelled as rationals;
  Python strings are modelled as `String`, or as `List Char` where the code
  manipulates them character by character.
* Python `title.split(' ')` (split on every single space, keeping empty
  pieces) is embedded structurally as `py_split_space`.
-/

/-- Python `str.strip()` on the characters of a string: drop leading and
trailing whitespace (used by `sanitize_filename` and for `tag.text.strip()`). -/
def py_strip (s : String) : String :=
  String.mk (((s.data.dropWhile Char.isWhitespace).reverse.dropWhile
      Char.isWhitespace).reverse)

/-- The characters matched by the regex class in line 16 of the source,
`[\\/*?:"<>|]`. -/
def forbidden_chars : List Char := ['\\', '/', '*', '?', ':', '"', '<', '>', '|']

/-- Line 14-16: `re.sub(r'[\\/*?:"<>|]', "", name).strip()` — delete every
forbidden character, then strip surrounding whitespace. -/
def sanitize_filename (name : String) : String :=
  py_strip (String.mk (name.data.filter (fun c => !forbidden_chars.contains c)))

/-- A chapter discovered on the main page: line 41,
`{'title': ..., 'url': ...}`. -/
structure Chapter where
  title : String
  url : String
  deriving DecidableEq, Repr

/-- One `<a href=...>` tag inside the table-of-contents div: its text content
and its `href` attribute (lines 37-40). -/
structure TocLink where
  text : String
  href : String
  deriving DecidableEq, Repr

/-- The first inner `<div>` of the details panel, as `details_panel.find('div')`
sees it: `h1_text` is the text of its first `<h1>` if one exists (line 27). -/
structure InnerDiv where
  h1_text : Option String
  deriving DecidableEq, Repr

/-- The `div.product-details-panel` element: `inner_div` is its first `<div>`
descendant, if any (line 27). -/
structure DetailsPanel where
  inner_div : Option InnerDiv
  deriving DecidableEq, Repr

/-- The parsed main book page, holding exactly what `get_book_details` queries:
the details panel (line 26) and the `div.tree.well` table of contents with its
`<a href>` links (lines 31, 37). `toc_div = none` models the absence of the
container; `some links` its presence with those links in document order. -/
structure MainPage where
  details_panel : Option DetailsPanel
  toc_div : Option (List TocLink)
  deriving DecidableEq, Repr

/-- How `get_book_details` can fail (beyond the root fetch itself, which is
outside this function's body once the page is given):
`structureError` models the `ValueError`s raised at lines 33 and 44;
`attributeError` models the uncaught `AttributeError` raised at line 27 when
`details_panel.find('div')` returns `None` and `.find('h1')` is called on it. -/
inductive DiscoveryError where
  | structureError (msg : String)
  | attributeError
  deriving DecidableEq, Repr

/-- Lines 18-47 of the source, `get_book_details`, given the already-fetched
and parsed main page.  `resolve` stands for `urljoin(main_url, .)` (line 40),
the black-box relative-URL resolution of the URL library.
The sentinel messages are those of lines 33 and 44 (inner quotes of the first
message omitted). -/
def get_book_details (resolve : String → String) (page : MainPage) :
    Except DiscoveryError (String × List Chapter) := do
  -- line 27: `details_panel.find('div').find('h1') if details_panel else None`
  let book_title_tag : Option String ←
    match page.details_panel with
    | none => pure none
    | some panel =>
      match panel.inner_div with
      | none => Except.error DiscoveryError.attributeError
      | some d => pure d.h1_text
  -- line 28
  let book_title :=
    match book_title_tag with
    | some t => py_strip t
    | none => "Untitled Book"
  -- lines 31-33
  match page.toc_div with
  | none =>
    Except.error (DiscoveryError.structureError
      "Could not find the table of contents (div with class tree well).")
  | some links =>
    -- lines 36-41
    let chapters := links.map (fun l =>
      { title := py_strip l.text, url := resolve l.href : Chapter })
    -- lines 43-44
    if chapters.isEmpty then
      Except.error (DiscoveryError.structureError
        "No chapters found in the table of contents.")
    else
      pure (book_title, chapters)

/-- One drawing call of `create_book_pdf`, tagged by its call site:
`addPage` = `pdf.add_page()` (line 103); `setFont style size` =
`pdf.set_font('ArmenianFont', style, size)`; `chapterTitle` = the
`multi_cell` of line 108; `lnOp` = `pdf.ln(n)`; `imageOp` = `pdf.image`
(line 130); `paragraph` = the `multi_cell` of line 148; `fullText` = the
`multi_cell` of line 152; `errorMsg` = the inline error / placeholder
`multi_cell`s of lines 156, 161 and 165. -/
inductive RenderOp where
  | addPage
  | setFont (style : String) (size : Nat)
  | chapterTitle (txt : String)
  | lnOp (n : Nat)
  | imageOp (url : String)
  | paragraph (txt : String)
  | fullText (txt : String)
  | errorMsg (txt : String)
  deriving DecidableEq, Repr

/-- The outcome of the image step for a chapter page (lines 118-132):
`ok url` — an `<img>` was found in the image panel, downloaded from its
resolved URL and embedded without error; `downloadError` — `requests.get` /
`raise_for_status` on the image URL raised a `RequestException` (line 122-123);
`embedError` — a non-request exception was raised while saving or embedding
the image (lines 127-131). -/
inductive ImgOutcome where
  | ok (url : String)
  | downloadError (msg : String)
  | embedError (msg : String)
  deriving DecidableEq, Repr

/-- The `div.work-reader-body-panel` content container of a chapter page
(lines 135-152), after the `<br>` normalisation of lines 140-141:
`paragraphs` are the extracted texts of its `<p>` elements in order
(line 144-147); `full_text` is `content_div.get_text(...)` used when there are
no `<p>` elements (line 151). -/
structure ContentDiv where
  paragraphs : List String
  full_text : String
  deriving DecidableEq, Repr

/-- A fetched and parsed chapter detail page: `image = none` models the
absence of the image panel or of an `<img>` inside it (the `if` of line 119
failing); `content = none` models the absence of the text container
(line 135). -/
structure ChapterDoc where
  image : Option ImgOutcome
  content : Option ContentDiv
  deriving DecidableEq, Repr

/-- The outcome of fetching one chapter's detail page (lines 113-115):
either a `RequestException` (netError) or a parsed document. -/
inductive FetchOutcome where
  | netError (msg : String)
  | page (doc : ChapterDoc)
  deriving DecidableEq, Repr

/-- Lines 134-156: the text-content step of a chapter, reached only when the
image step did not raise. -/
def content_ops (content : Option ContentDiv) : List RenderOp :=
  match content with
  | some cd =>
    RenderOp.setFont "" 12 ::
      (if cd.paragraphs.isEmpty then
        [RenderOp.fullText cd.full_text]
      else
        (cd.paragraphs.map (fun p => [RenderOp.paragraph p, RenderOp.lnOp 3])).flatten)
  | none =>
    [RenderOp.setFont "I" 12,
     RenderOp.errorMsg "Could not find text content for this chapter."]

/-- Lines 111-165: the `try`/`except` body of one chapter after its title.
A network error on the chapter fetch, or a failure inside the image step,
jumps to the matching `except` handler (lines 158-165), so in those cases the
text-content step never runs and only the inline error message is drawn. -/
def render_chapter_body (outcome : FetchOutcome) : List RenderOp :=
  match outcome with
  | FetchOutcome.netError msg =>
    [RenderOp.setFont "I" 12, RenderOp.errorMsg ("Error fetching content: " ++ msg)]
  | FetchOutcome.page doc =>
    match doc.image with
    | none => content_ops doc.content
    | some (ImgOutcome.ok url) =>
      RenderOp.imageOp url :: RenderOp.lnOp 5 :: content_ops doc.content
    | some (ImgOutcome.downloadError msg) =>
      [RenderOp.setFont "I" 12, RenderOp.errorMsg ("Error fetching content: " ++ msg)]
    | some (ImgOutcome.embedError msg) =>
      [RenderOp.setFont "I" 12, RenderOp.errorMsg ("An error occurred: " ++ msg)]

/-- Lines 103-165: everything one loop iteration draws — the fresh page, the
heading font, the chapter title, the small gap, then the body. -/
def render_chapter (c : Chapter) (outcome : FetchOutcome) : List RenderOp :=
  RenderOp.addPage :: RenderOp.setFont "B" 16 :: RenderOp.chapterTitle c.title ::
    RenderOp.lnOp 5 :: render_chapter_body outcome

/-- One table-of-contents record: line 105,
`{'title': chapter['title'], 'page': pdf.page_no()}`. -/
structure TocEntry where
  title : String
  page : Nat
  deriving DecidableEq, Repr

/-- Lines 101-165, the chapter loop.  `i` is the running chapter index,
`page` the value of `pdf.page_no()` on entry to the iteration.  Each
iteration performs `pdf.add_page()` (so the entry's recorded page is
`page + 1`), draws the chapter, and hands the next iteration the page
number grown further by `extra i`, the automatic page breaks the chapter
body caused inside the renderer.  Each list element pairs the chapter's
`TocEntry` with the ops drawn for that chapter. -/
def run_chapters (fetch : Nat → FetchOutcome) (extra : Nat → Nat) :
    List Chapter → Nat → Nat → List (TocEntry × List RenderOp)
  | [], _, _ => []
  | c :: rest, i, page =>
    ({ title := c.title, page := page + 1 }, render_chapter c (fetch i)) ::
      run_chapters fetch extra rest (i + 1) (page + 1 + extra i)

/-- The observable result of `create_book_pdf`: whether the run got past the
font check (line 87 returns early otherwise), the output filename computed at
line 64, and the per-chapter results of the loop. -/
structure PdfRun where
  completed : Bool
  filename : String
  chapterResults : List (TocEntry × List RenderOp)
  deriving DecidableEq, Repr

/-- Lines 60-165 of `create_book_pdf` (the font gate, the filename, and the
chapter loop; the trailing TOC assembly is modelled separately below).
`fonts_ok` is the filesystem check of line 78; when it fails the function
returns at line 87 having produced nothing.  The loop starts with
`pdf.page_no() = 1`: the title page was added at line 95. -/
def create_book_pdf (fonts_ok : Bool) (fetch : Nat → FetchOutcome)
    (extra : Nat → Nat) (book_title : String) (chapters : List Chapter) : PdfRun :=
  let pdf_filename := sanitize_filename book_title ++ ".pdf"
  if fonts_ok then
    { completed := true, filename := pdf_filename,
      chapterResults := run_chapters fetch extra chapters 0 1 }
  else
    { completed := false, filename := pdf_filename, chapterResults := [] }

/-- fpdf's `get_string_width` on a character list: the sum of the per-character
widths `cw` of the current font. -/
def str_width (cw : Char → ℚ) (cs : List Char) : ℚ := (cs.map cw).sum

/-- fpdf's `pdf.get_string_width` on a string (line 190). -/
def get_string_width (cw : Char → ℚ) (s : String) : ℚ := str_width cw s.data

/-- Python `title.split(' ')` (line 185): split on every single space,
keeping empty pieces between consecutive spaces and yielding one (possibly
empty) piece for the empty string.  `acc` is the piece under construction. -/
def py_split_space_aux : List Char → List Char → List (List Char)
  | [], acc => [acc]
  | c :: rest, acc =>
    if c = ' ' then acc :: py_split_space_aux rest []
    else py_split_space_aux rest (acc ++ [c])

/-- `title.split(' ')` on a string. -/
def py_split_space (title : String) : List (List Char) :=
  py_split_space_aux title.data []

/-- Lines 186-194, the manual height-calculation loop: `lines` starts at 1,
`cur` (the Python `current_line_text`) starts empty, and for each word the
code tests `pdf.get_string_width(current_line_text + word + ' ') >
title_col_width`. -/
def title_lines_loop (cw : Char → ℚ) (col_w : ℚ) :
    List (List Char) → Nat → List Char → Nat
  | [], lines, _ => lines
  | word :: ws, lines, cur =>
    if col_w < str_width cw (cur ++ word ++ [' ']) then
      title_lines_loop cw col_w ws (lines + 1) (word ++ [' '])
    else
      title_lines_loop cw col_w ws lines (cur ++ word ++ [' '])

/-- Lines 185-194: the estimated number of wrapped lines of a TOC title. -/
def title_lines (cw : Char → ℚ) (col_w : ℚ) (title : String) : Nat :=
  title_lines_loop cw col_w (py_split_space title) 1 []

/-- Line 177: `line_height = 7`. -/
def line_height : ℚ := 7

/-- Line 196: `title_height = lines * line_height`. -/
def title_height (cw : Char → ℚ) (col_w : ℚ) (title : String) : ℚ :=
  (title_lines cw col_w title : ℚ) * line_height

/-- Proof auxiliary: the concatenation of a word list in which every word is
followed by one space — exactly the string the Python loop has accumulated in
`current_line_text` after consuming those words without a line break. -/
def join_sp : List (List Char) → List Char
  | [] => []
  | w :: ws => w ++ ' ' :: join_sp ws

/-- The document cursor during TOC assembly: current page number and current
Y position (`pdf.page_no()`, `pdf.get_y()`). -/
structure TocState where
  page : Nat
  y : ℚ
  deriving DecidableEq, Repr

/-- Lines 199-201: the pagination check before drawing one TOC entry.  If
`pdf.get_y() + title_height >= pdf.page_break_trigger` a page is added first,
putting the cursor at the top margin `top_y` of a fresh page; otherwise the
state is unchanged.  The returned state is where the entry starts drawing. -/
def toc_start_state (cw : Char → ℚ) (col_w trigger top_y : ℚ)
    (s : TocState) (title : String) : TocState :=
  if trigger ≤ s.y + title_height cw col_w title then
    { page := s.page + 1, y := top_y }
  else s

/-- Lines 203-217: drawing one TOC entry.  `start_y` is captured after the
pagination check; the title `multi_cell`, the `set_xy` back to `start_y`, and
the page-number `cell` of height `title_height` with `ln=1` leave the cursor
at `start_y + title_height`; `pdf.ln(4)` then adds the inter-entry gap. -/
def draw_toc_entry (cw : Char → ℚ) (col_w trigger top_y : ℚ)
    (s : TocState) (title : String) : TocState :=
  let s1 := toc_start_state cw col_w trigger top_y s title
  { page := s1.page, y := s1.y + title_height cw col_w title + 4 }

/-! ## Helper lemmas about string widths and the wrap-estimation loop -/

theorem str_width_append (cw : Char → ℚ) (a b : List Char) :
    str_width cw (a ++ b) = str_width cw a + str_width cw b := by
  simp [str_width]

theorem str_width_nonneg (cw : Char → ℚ) (hnn : ∀ c, 0 ≤ cw c) (cs : List Char) :
    0 ≤ str_width cw cs := by
  refine List.sum_nonneg ?_
  intro x hx
  obtain ⟨c, _, rfl⟩ := List.mem_map.mp hx
  exact hnn c

theorem title_lines_loop_le (cw : Char → ℚ) (col_w : ℚ) :
    ∀ (ws : List (List Char)) (lines : Nat) (cur : List Char),
      lines ≤ title_lines_loop cw col_w ws lines cur := by
  intro ws
  induction ws with
  | nil => intro lines cur; exact Nat.le_refl _
  | cons w ws ih =>
    intro lines cur
    simp only [title_lines_loop]
    split
    · exact Nat.le_trans (Nat.le_succ _) (ih _ _)
    · exact ih _ _

theorem title_lines_loop_fits (cw : Char → ℚ) (col_w : ℚ) (hnn : ∀ c, 0 ≤ cw c) :
    ∀ (ws : List (List Char)) (cur : List Char) (lines : Nat),
      str_width cw (cur ++ join_sp ws) ≤ col_w →
      title_lines_loop cw col_w ws lines cur = lines := by
  intro ws
  induction ws with
  | nil => intro cur lines _; rfl
  | cons w ws ih =>
    intro cur lines hfit
    have hsame : cur ++ join_sp (w :: ws) = (cur ++ w ++ [' ']) ++ join_sp ws := by
      simp [join_sp]
    rw [hsame] at hfit
    have hsub : str_width cw (cur ++ w ++ [' ']) ≤ col_w := by
      have h0 := str_width_nonneg cw hnn (join_sp ws)
      rw [str_width_append] at hfit
      linarith
    simp only [title_lines_loop]
    rw [if_neg (not_lt.mpr hsub)]
    exact ih _ _ hfit

theorem title_lines_loop_wide (cw : Char → ℚ) (col_w : ℚ) (hnn : ∀ c, 0 ≤ cw c) :
    ∀ (ws : List (List Char)) (cur : List Char) (lines : Nat),
      (∀ w ∈ ws, col_w < str_width cw w) →
      title_lines_loop cw col_w ws lines cur = lines + ws.length := by
  intro ws
  induction ws with
  | nil => intro cur lines _; rfl
  | cons w ws ih =>
    intro cur lines hwide
    have hw : col_w < str_width cw (cur ++ w ++ [' ']) := by
      have h1 := hwide w (List.mem_cons_self w ws)
      have h2 := str_width_nonneg cw hnn cur
      have h3 := str_width_nonneg cw hnn [' ']
      rw [str_width_append, str_width_append]
      linarith
    simp only [title_lines_loop]
    rw [if_pos hw, ih _ _ (fun x hx => hwide x (List.mem_cons_of_mem _ hx))]
    simp only [List.length_cons]
    omega

theorem join_sp_split : ∀ (cs acc : List Char),
    join_sp (py_split_space_aux cs acc) = acc ++ cs ++ [' '] := by
  intro cs
  induction cs with
  | nil => intro acc; simp [py_split_space_aux, join_sp]
  | cons c rest ih =>
    intro acc
    by_cases hc : c = ' '
    · subst hc
      simp [py_split_space_aux, join_sp, ih]
    · simp [py_split_space_aux, hc, ih]

/-! ## Helper lemmas about the chapter loop -/

theorem run_chapters_length (fetch : Nat → FetchOutcome) (extra : Nat → Nat) :
    ∀ (cs : List Chapter) (i page : Nat),
      (run_chapters fetch extra cs i page).length = cs.length := by
  intro cs
  induction cs with
  | nil => intro i page; rfl
  | cons c rest ih => intro i page; simp [run_chapters, ih]

theorem run_chapters_titles (fetch : Nat → FetchOutcome) (extra : Nat → Nat) :
    ∀ (cs : List Chapter) (i page : Nat),
      (run_chapters fetch extra cs i page).map (fun r => r.1.title)
        = cs.map Chapter.title := by
  intro cs
  induction cs with
  | nil => intro i page; rfl
  | cons c rest ih => intro i page; simp [run_chapters, ih]

theorem run_chapters_page_lb (fetch : Nat → FetchOutcome) (extra : Nat → Nat) :
    ∀ (cs : List Chapter) (i page : Nat) (r : TocEntry × List RenderOp),
      r ∈ run_chapters fetch extra cs i page → page + 1 ≤ r.1.page := by
  intro cs
  induction cs with
  | nil => intro i page r hr; simp [run_chapters] at hr
  | cons c rest ih =>
    intro i page r hr
    rw [run_chapters] at hr
    rcases List.mem_cons.mp hr with h | h
    · subst h; exact Nat.le.refl
    · have := ih (i + 1) (page + 1 + extra i) r h
      omega

theorem run_chapters_pairwise (fetch : Nat → FetchOutcome) (extra : Nat → Nat) :
    ∀ (cs : List Chapter) (i page : Nat),
      (run_chapters fetch extra cs i page).Pairwise
        (fun a b => a.1.page ≤ b.1.page) := by
  intro cs
  induction cs with
  | nil => intro i page; simp [run_chapters]
  | cons c rest ih =>
    intro i page
    rw [run_chapters]
    refine List.Pairwise.cons ?_ (ih _ _)
    intro b hb
    have := run_chapters_page_lb fetch extra rest (i + 1) (page + 1 + extra i) b hb
    simp only
    omega

theorem run_chapters_getElem (fetch : Nat → FetchOutcome) (extra : Nat → Nat) :
    ∀ (cs : List Chapter) (k i page : Nat) (c : Chapter), cs[k]? = some c →
      ∃ pg, (run_chapters fetch extra cs i page)[k]? =
        some ({ title := c.title, page := pg }, render_chapter c (fetch (i + k))) := by
  intro cs
  induction cs with
  | nil => intro k i page c hc; simp at hc
  | cons c0 rest ih =>
    intro k i page c hc
    cases k with
    | zero =>
      simp only [List.getElem?_cons_zero, Option.some.injEq] at hc
      subst hc
      exact ⟨page + 1, by simp [run_chapters]⟩
    | succ k =>
      simp only [List.getElem?_cons_succ] at hc
      obtain ⟨pg, hpg⟩ := ih k (i + 1) (page + 1 + extra i) c hc
      refine ⟨pg, ?_⟩
      rw [run_chapters]
      simp only [List.getElem?_cons_succ]
      rw [hpg]
      have harith : i + 1 + k = i + (k + 1) := by omega
      rw [harith]

/-! ## Claim theorems -/

/-- Claim C1 (confirmed): for every input chapter list of length N,
`create_book_pdf` (past its font gate) produces exactly N `TocEntry` records,
one appended per chapter at the moment that chapter's first page is added,
and their order equals the order of the input chapters: the titles of the
produced entries, read in order, are exactly the input chapter titles. -/
theorem toc_entries_count_and_order (fetch : Nat → FetchOutcome)
    (extra : Nat → Nat) (book_title : String) (chapters : List Chapter) :
    ((create_book_pdf true fetch extra book_title chapters).chapterResults.map
        (fun r => r.1.title)) = chapters.map Chapter.title ∧
    (create_book_pdf true fetch extra book_title chapters).chapterResults.length
      = chapters.length := by
  constructor
  · exact run_chapters_titles fetch extra chapters 0 1
  · exact run_chapters_length fetch extra chapters 0 1

/-- Claim C4 (confirmed): across the sequence of `TocEntry` records produced
by one run of `create_book_pdf`, the `page` field is monotonically
non-decreasing: for every pair of indices `i < j`, the page of entry `i` is
at most the page of entry `j`, for every possible pattern of automatic page
breaks inside the chapters. -/
theorem toc_pages_monotone (fetch : Nat → FetchOutcome) (extra : Nat → Nat)
    (book_title : String) (chapters : List Chapter) (i j : Nat) (hij : i < j)
    (hi : i < (create_book_pdf true fetch extra book_title chapters).chapterResults.length)
    (hj : j < (create_book_pdf true fetch extra book_title chapters).chapterResults.length) :
    ((create_book_pdf true fetch extra book_title chapters).chapterResults.get
        ⟨i, hi⟩).1.page ≤
    ((create_book_pdf true fetch extra book_title chapters).chapterResults.get
        ⟨j, hj⟩).1.page := by
  have hp : (create_book_pdf true fetch extra book_title chapters).chapterResults.Pairwise
      (fun a b => a.1.page ≤ b.1.page) :=
    run_chapters_pairwise fetch extra chapters 0 1
  exact List.pairwise_iff_get.mp hp ⟨i, hi⟩ ⟨j, hj⟩ (Fin.mk_lt_mk.mpr hij)

/-- Witness for C4: in a two-chapter run the first entry's page (2) is at
most the second entry's page (3). -/
theorem toc_pages_monotone_witness :
    ((create_book_pdf true (fun _ => FetchOutcome.netError "e") (fun _ => 0) "B"
        [{ title := "C1", url := "u1" }, { title := "C2", url := "u2" }]).chapterResults.get
        ⟨0, by decide⟩).1.page ≤
    ((create_book_pdf true (fun _ => FetchOutcome.netError "e") (fun _ => 0) "B"
        [{ title := "C1", url := "u1" }, { title := "C2", url := "u2" }]).chapterResults.get
        ⟨1, by decide⟩).1.page :=
  toc_pages_monotone (fun _ => FetchOutcome.netError "e") (fun _ => 0) "B"
    [{ title := "C1", url := "u1" }, { title := "C2", url := "u2" }] 0 1
    (by decide) (by decide) (by decide)

/-- Claim C6 (confirmed): a chapter whose detail-page fetch raises a network
error gets the inline message `Error fetching content: ...` in place of its
content; the run is not aborted (all N chapters still produce results) and
the chapter's title page (`add_page` + title `multi_cell`) and its `TocEntry`
(recorded before the fetch) are still present. -/
theorem chapter_fetch_error_isolated (fetch : Nat → FetchOutcome)
    (extra : Nat → Nat) (book_title : String) (chapters : List Chapter)
    (i : Nat) (msg : String) (c : Chapter)
    (hc : chapters[i]? = some c)
    (hf : fetch i = FetchOutcome.netError msg) :
    (create_book_pdf true fetch extra book_title chapters).chapterResults.length
      = chapters.length ∧
    ((create_book_pdf true fetch extra book_title chapters).chapterResults.getD i
        ({ title := "", page := 0 }, [])).1.title = c.title ∧
    RenderOp.addPage ∈
      ((create_book_pdf true fetch extra book_title chapters).chapterResults.getD i
        ({ title := "", page := 0 }, [])).2 ∧
    RenderOp.chapterTitle c.title ∈
      ((create_book_pdf true fetch extra book_title chapters).chapterResults.getD i
        ({ title := "", page := 0 }, [])).2 ∧
    RenderOp.errorMsg ("Error fetching content: " ++ msg) ∈
      ((create_book_pdf true fetch extra book_title chapters).chapterResults.getD i
        ({ title := "", page := 0 }, [])).2 := by
  obtain ⟨pg, hpg⟩ := run_chapters_getElem fetch extra chapters i 0 1 c hc
  rw [Nat.zero_add, hf] at hpg
  have hgetd : (create_book_pdf true fetch extra book_title chapters).chapterResults.getD i
      ({ title := "", page := 0 }, [])
      = ({ title := c.title, page := pg }, render_chapter c (FetchOutcome.netError msg)) := by
    have hcr : (create_book_pdf true fetch extra book_title chapters).chapterResults
        = run_chapters fetch extra chapters 0 1 := rfl
    rw [hcr]
    simp [List.getD, hpg]
  refine ⟨run_chapters_length fetch extra chapters 0 1, ?_, ?_, ?_, ?_⟩ <;>
    rw [hgetd] <;> simp [render_chapter, render_chapter_body]

/-- Witness for C6: a one-chapter run whose only fetch fails with a network
error still yields the chapter's result, with the title page ops, the
`TocEntry` title and the inline error message all present. -/
theorem chapter_fetch_error_isolated_witness :
    (create_book_pdf true (fun _ => FetchOutcome.netError "boom") (fun _ => 0) "B"
        [{ title := "Ch1", url := "u" }]).chapterResults.length = 1 ∧
    ((create_book_pdf true (fun _ => FetchOutcome.netError "boom") (fun _ => 0) "B"
        [{ title := "Ch1", url := "u" }]).chapterResults.getD 0
        ({ title := "", page := 0 }, [])).1.title = "Ch1" ∧
    RenderOp.addPage ∈
      ((create_book_pdf true (fun _ => FetchOutcome.netError "boom") (fun _ => 0) "B"
        [{ title := "Ch1", url := "u" }]).chapterResults.getD 0
        ({ title := "", page := 0 }, [])).2 ∧
    RenderOp.chapterTitle "Ch1" ∈
      ((create_book_pdf true (fun _ => FetchOutcome.netError "boom") (fun _ => 0) "B"
        [{ title := "Ch1", url := "u" }]).chapterResults.getD 0
        ({ title := "", page := 0 }, [])).2 ∧
    RenderOp.errorMsg ("Error fetching content: " ++ "boom") ∈
      ((create_book_pdf true (fun _ => FetchOutcome.netError "boom") (fun _ => 0) "B"
        [{ title := "Ch1", url := "u" }]).chapterResults.getD 0
        ({ title := "", page := 0 }, [])).2 :=
  chapter_fetch_error_isolated (fun _ => FetchOutcome.netError "boom") (fun _ => 0)
    "B" [{ title := "Ch1", url := "u" }] 0 "boom" { title := "Ch1", url := "u" }
    (by decide) rfl

/-- Claim C7 counterexample: a chapter page whose image download fails while
its text container is present with the paragraph `P1`.  The code's `try` block
covers image and text steps together, so the exception skips the text step:
the body renders only the inline error message and the paragraph is absent —
refuting "the text step is still performed and the chapter's paragraphs are
rendered". -/
theorem chapter_step_fault_tolerance_counterexample :
    ({ image := some (ImgOutcome.downloadError "net down"),
       content := some { paragraphs := ["P1"], full_text := "P1" } : ChapterDoc }).content
      = some { paragraphs := ["P1"], full_text := "P1" } ∧
    render_chapter_body (FetchOutcome.page
        { image := some (ImgOutcome.downloadError "net down"),
          content := some { paragraphs := ["P1"], full_text := "P1" } })
      = [RenderOp.setFont "I" 12, RenderOp.errorMsg "Error fetching content: net down"] ∧
    RenderOp.paragraph "P1" ∉ render_chapter_body (FetchOutcome.page
        { image := some (ImgOutcome.downloadError "net down"),
          content := some { paragraphs := ["P1"], full_text := "P1" } }) := by
  refine ⟨rfl, rfl, ?_⟩
  decide

/-- Claim C7 (corrected): fault tolerance is per chapter, not per step.  If a
chapter page's image download or image embedding fails, the text step is
skipped even when the text container is present: no paragraph is rendered for
that chapter, an inline error message is drawn in its place, and the run
continues (every chapter of the list still produces a result). -/
theorem chapter_fault_tolerance_per_chapter (msg : String) (doc : ChapterDoc)
    (cd : ContentDiv) (hcd : doc.content = some cd)
    (himg : doc.image = some (ImgOutcome.downloadError msg) ∨
            doc.image = some (ImgOutcome.embedError msg))
    (fetch : Nat → FetchOutcome) (extra : Nat → Nat) (book_title : String)
    (chapters : List Chapter) :
    (∀ p, RenderOp.paragraph p ∉ render_chapter_body (FetchOutcome.page doc)) ∧
    (RenderOp.errorMsg ("Error fetching content: " ++ msg)
        ∈ render_chapter_body (FetchOutcome.page doc) ∨
     RenderOp.errorMsg ("An error occurred: " ++ msg)
        ∈ render_chapter_body (FetchOutcome.page doc)) ∧
    (create_book_pdf true fetch extra book_title chapters).chapterResults.length
      = chapters.length := by
  obtain ⟨img, content⟩ := doc
  rcases himg with h | h <;> simp only at h <;> subst h
  · exact ⟨fun p => by simp [render_chapter_body],
      Or.inl (by simp [render_chapter_body]),
      run_chapters_length fetch extra chapters 0 1⟩
  · exact ⟨fun p => by simp [render_chapter_body],
      Or.inr (by simp [render_chapter_body]),
      run_chapters_length fetch extra chapters 0 1⟩

/-- Witness for the corrected C7: at the concrete failing-image chapter of the
counterexample, the paragraph is not rendered and a one-chapter run still has
one result. -/
theorem chapter_fault_tolerance_per_chapter_witness :
    RenderOp.paragraph "P1" ∉ render_chapter_body (FetchOutcome.page
        { image := some (ImgOutcome.downloadError "net down"),
          content := some { paragraphs := ["P1"], full_text := "P1" } }) ∧
    (create_book_pdf true (fun _ => FetchOutcome.netError "e") (fun _ => 0) "B"
        [{ title := "c", url := "u" }]).chapterResults.length = 1 :=
  have h := chapter_fault_tolerance_per_chapter "net down"
    { image := some (ImgOutcome.downloadError "net down"),
      content := some { paragraphs := ["P1"], full_text := "P1" } }
    { paragraphs := ["P1"], full_text := "P1" } rfl (Or.inl rfl)
    (fun _ => FetchOutcome.netError "e") (fun _ => 0) "B"
    [{ title := "c", url := "u" }]
  ⟨h.1 "P1", h.2.2⟩

/-- Claim C2 counterexample.  First half: with character widths 9 for every
letter and 2 for the space, the title `a` measures 9, strictly below the
column width 10, yet the loop yields 2 lines, not 1 (it measures the word
with a trailing space: 11 > 10).  Second half: with every character 6 wide
and column width 10, the title `aa bb cc` has 3 words, each measuring 12 > 10
alone, yet the loop yields 4 lines, not 3 (the first word already triggers
the `lines += 1` branch). -/
theorem toc_wrap_estimate_counterexample :
    (get_string_width (fun c => if c = ' ' then (2 : ℚ) else 9) "a" < 10 ∧
      title_lines (fun c => if c = ' ' then (2 : ℚ) else 9) 10 "a" ≠ 1) ∧
    ((∀ w ∈ py_split_space "aa bb cc", (10 : ℚ) < str_width (fun _ => (6 : ℚ)) w) ∧
      (py_split_space "aa bb cc").length = 3 ∧
      title_lines (fun _ => (6 : ℚ)) 10 "aa bb cc" ≠ 3) := by
  have hsz : py_split_space "a" = [['a']] := by decide
  have hsplit : py_split_space "aa bb cc" = [['a','a'], ['b','b'], ['c','c']] := by decide
  have hdata : ("a" : String).data = ['a'] := by decide
  refine ⟨⟨?_, ?_⟩, ?_, ?_, ?_⟩
  · simp only [get_string_width, hdata]
    norm_num [str_width, (by decide : ('a' = ' ') = False)]
  · simp only [title_lines, hsz]
    norm_num [title_lines_loop, str_width, (by decide : ('a' = ' ') = False)]
  · rw [hsplit]
    intro w hw
    simp only [List.mem_cons, List.not_mem_nil, or_false] at hw
    rcases hw with h | h | h
    · subst h; norm_num [str_width]
    · subst h; norm_num [str_width]
    · subst h; norm_num [str_width]
  · rw [hsplit]; rfl
  · simp only [title_lines, hsplit]
    norm_num [title_lines_loop, str_width]

/-- Claim C2 (corrected): with non-negative character widths, (a) if the
title followed by one trailing space fits the column (its measured width is
at most the column width), the loop yields exactly 1 line — the loop always
measures the accumulated words each followed by a space, so this (not the
bare title width) is the accurate premise; and (b) a title of W words each of
which alone exceeds the column width yields exactly W + 1 lines, not W — the
loop, starting at `lines = 1`, increments for every over-wide word, including
the first. -/
theorem toc_wrap_estimate_amended (cw : Char → ℚ) (col_w : ℚ) (title : String)
    (hnn : ∀ c, 0 ≤ cw c) :
    (get_string_width cw (title ++ " ") ≤ col_w →
      title_lines cw col_w title = 1) ∧
    ((∀ w ∈ py_split_space title, col_w < str_width cw w) →
      title_lines cw col_w title = (py_split_space title).length + 1) := by
  constructor
  · intro hfit
    apply title_lines_loop_fits cw col_w hnn
    rw [List.nil_append, py_split_space, join_sp_split, List.nil_append]
    rw [get_string_width, String.data_append] at hfit
    simpa using hfit
  · intro hwide
    rw [title_lines, title_lines_loop_wide cw col_w hnn _ _ _ hwide, py_split_space]
    omega

/-- Witness for the corrected C2: with every character 1 wide, the title
`ab cd` fits a column of width 10 and yields 1 line; against a column of
width 1 both of its words are over-wide and it yields 2 + 1 = 3 lines. -/
theorem toc_wrap_estimate_amended_witness :
    title_lines (fun _ => (1 : ℚ)) 10 "ab cd" = 1 ∧
    title_lines (fun _ => (1 : ℚ)) 1 "ab cd" = 3 := by
  constructor
  · refine (toc_wrap_estimate_amended (fun _ => (1 : ℚ)) 10 "ab cd"
      (fun _ => zero_le_one)).1 ?_
    have hdata : ("ab cd " : String).data = ['a','b',' ','c','d',' '] := by decide
    have happ : ("ab cd" : String) ++ " " = "ab cd " := by decide
    rw [happ, get_string_width, hdata]
    norm_num [str_width]
  · refine (toc_wrap_estimate_amended (fun _ => (1 : ℚ)) 1 "ab cd"
      (fun _ => zero_le_one)).2 ?_ |>.trans ?_
    · have hsplit : py_split_space "ab cd" = [['a','b'], ['c','d']] := by decide
      rw [hsplit]
      intro w hw
      simp only [List.mem_cons, List.not_mem_nil, or_false] at hw
      rcases hw with h | h
      · subst h; norm_num [str_width]
      · subst h; norm_num [str_width]
    · have hsplit : py_split_space "ab cd" = [['a','b'], ['c','d']] := by decide
      rw [hsplit]
      rfl

/-- Claim C10 (confirmed): for every title (the empty string and space-free
titles included) and every width table, the height-estimation loop yields at
least 1 line, so the estimated entry height is at least one `line_height`
(7 units), and drawing a TOC entry advances the Y cursor from its post-check
start position by the strictly positive amount `title_height + 4`. -/
theorem toc_entry_height_positive (cw : Char → ℚ) (col_w trigger top_y : ℚ)
    (s : TocState) (title : String) :
    1 ≤ title_lines cw col_w title ∧
    line_height ≤ title_height cw col_w title ∧
    (toc_start_state cw col_w trigger top_y s title).y <
      (draw_toc_entry cw col_w trigger top_y s title).y := by
  have h1 : 1 ≤ title_lines cw col_w title :=
    title_lines_loop_le cw col_w (py_split_space title) 1 []
  have h7 : line_height ≤ title_height cw col_w title := by
    rw [title_height, line_height]
    have hc : (1 : ℚ) ≤ (title_lines cw col_w title : ℚ) := by exact_mod_cast h1
    nlinarith
  refine ⟨h1, h7, ?_⟩
  have hy : (draw_toc_entry cw col_w trigger top_y s title).y
      = (toc_start_state cw col_w trigger top_y s title).y
        + title_height cw col_w title + 4 := rfl
  rw [hy, line_height] at *
  linarith

/-- Claim C3 (confirmed): before a TOC entry is drawn, if the current Y
position plus the entry's estimated height reaches the page-break trigger, a
new page is started first (cursor at the fresh page's top); and under the
precondition that the estimated height itself fits on one page
(`top_y + height < trigger`), the Y position the entry is drawn at satisfies
`start_y + height < trigger`, so the entry never crosses the trigger. -/
theorem toc_entry_pagination_no_split (cw : Char → ℚ) (col_w trigger top_y : ℚ)
    (s : TocState) (title : String)
    (hfit : top_y + title_height cw col_w title < trigger) :
    (trigger ≤ s.y + title_height cw col_w title →
      toc_start_state cw col_w trigger top_y s title
        = { page := s.page + 1, y := top_y }) ∧
    (toc_start_state cw col_w trigger top_y s title).y
        + title_height cw col_w title < trigger := by
  constructor
  · intro h
    rw [toc_start_state, if_pos h]
  · by_cases h : trigger ≤ s.y + title_height cw col_w title
    · rw [toc_start_state, if_pos h]
      exact hfit
    · rw [toc_start_state, if_neg h]
      exact not_le.mp h

/-- Witness for C3: with unit character widths the title `ab` estimates to
one line of height 7; from Y = 275 with trigger 280 the check fires, a page
is added (cursor to `top_y` = 10), and the entry then fits: 10 + 7 < 280. -/
theorem toc_entry_pagination_no_split_witness :
    toc_start_state (fun _ => (1 : ℚ)) 100 280 10 { page := 2, y := 275 } "ab"
      = { page := 3, y := 10 } ∧
    (toc_start_state (fun _ => (1 : ℚ)) 100 280 10 { page := 2, y := 275 } "ab").y
      + title_height (fun _ => (1 : ℚ)) 100 "ab" < 280 := by
  have hsz : py_split_space "ab" = [['a','b']] := by decide
  have ht : title_height (fun _ => (1 : ℚ)) 100 "ab" = 7 := by
    simp only [title_height, title_lines, hsz, line_height]
    norm_num [title_lines_loop, str_width]
  have h := toc_entry_pagination_no_split (fun _ => (1 : ℚ)) 100 280 10
    { page := 2, y := 275 } "ab" (by rw [ht]; norm_num)
  exact ⟨h.1 (by rw [ht]; norm_num), h.2⟩

/-- Claim C5 (code bug): on a main page whose details panel is present but
contains no inner `<div>` and whose table-of-contents container is absent,
`get_book_details` does not fail with a StructureError as the claim requires
for an absent container — the title-extraction line crashes first with an
uncaught `AttributeError` (`None.find('h1')`), aborting the whole run. -/
theorem get_book_details_crash_on_missing_toc :
    get_book_details (fun h => h)
        { details_panel := some { inner_div := none }, toc_div := none }
      = Except.error DiscoveryError.attributeError := rfl

/-- Claim C8 (code bug): a main page with no title element anywhere — its
details panel exists but holds no inner `<div>` — and a valid one-link table
of contents.  The claim requires the placeholder result
`("Untitled Book", chapters)`; the code instead crashes at line 27 with an
uncaught `AttributeError`, because `details_panel.find('div')` is `None` and
`.find('h1')` is called on it. -/
theorem get_book_details_title_absent_crash :
    get_book_details (fun h => h)
        { details_panel := some { inner_div := none },
          toc_div := some [{ text := "Ch 1", href := "ch1" }] }
      = Except.error DiscoveryError.attributeError := rfl

/-- Claim C9 (confirmed): for every input string, `sanitize_filename` returns
a string containing none of the forbidden filename characters: every
character of the forbidden class is absent from the result. -/
theorem sanitize_filename_no_forbidden (name : String) (c : Char)
    (hc : c ∈ forbidden_chars) : c ∉ (sanitize_filename name).data := by
  intro hmem
  have h1 : c ∈ (((name.data.filter (fun c => !forbidden_chars.contains c)).dropWhile
      Char.isWhitespace).reverse.dropWhile Char.isWhitespace).reverse := hmem
  have h2 : c ∈ name.data.filter (fun c => !forbidden_chars.contains c) := by
    have h3 := List.mem_reverse.mp h1
    have h4 := (List.dropWhile_sublist _).mem h3
    have h5 := List.mem_reverse.mp h4
    exact (List.dropWhile_sublist _).mem h5
  have h6 := (List.mem_filter.mp h2).2
  simp at h6
  exact h6 hc

/-- Witness for C9: sanitizing `A/B:C?` keeps the character `A`, and by the
theorem no kept character — `/` here — is forbidden; concretely `/` is in the
forbidden class and absent from the sanitized result. -/
theorem sanitize_filename_no_forbidden_witness :
    '/' ∈ forbidden_chars ∧ '/' ∉ (sanitize_filename "A/B:C?").data :=
  ⟨by decide, sanitize_filename_no_forbidden "A/B:C?" '/' (by decide)⟩
